import Mathlib

/-!
Shallow embedding of `src/include/cx/lambda.h` (the CX type-erased callable
value: non-allocating `Lambda` and heap-backed `AllocLambda`), together with
theorems settling the frozen claims about it.

Modelling conventions:
* C++ `sizeof`/`alignof` values of concrete wrapper types are compile-time
  constants per type; the embedding carries them as explicit `Nat` data
  (`FunctorMeta`, `stubTypeSize`, `stubTypeAlignment`).
* Exceptions become `Except LambdaError` results; a `throw` escaping a
  `noexcept` context becomes the distinguished `CallResult.terminated`
  outcome (C++ `std::terminate`).
* The payload of a wrapper is a total Lean function; copy-initialization and
  move-initialization of a wrapper (`copyInitWrapper` / `moveInitWrapper`)
  perform identical buffer checks and install the same payload, so a single
  definition models both.
* The `AllocLambda` shared heap is an explicit store of buffer cells; an
  `AllocLambda` value is an address into that store (the `shared_ptr`).
-/

namespace CXL

/-- `sizeof(void *)` on the modelled 64-bit target. -/
def ptrBytes : Nat := 8

/-- `CX_LAMBDA_BUF_SIZE` default: `sizeof(void *) * 8`. -/
def CX_LAMBDA_BUF_SIZE : Nat := ptrBytes * 8

/-- `CX_LAMBDA_BUF_ALIGN` default: `sizeof(void *) * 8`. -/
def CX_LAMBDA_BUF_ALIGN : Nat := ptrBytes * 8

/-- Modelled `sizeof(NonAllocLambdaWrapperStub<...>)`: one vtable pointer and
two stored buffer-property words.  `AllocLambdaWrapperStub` inherits it and
adds no fields, so it has the same size.  The header's `static_assert`s
guarantee this is at most `CX_LAMBDA_BUF_SIZE`. -/
def stubTypeSize : Nat := 3 * ptrBytes

/-- Modelled `alignof(NonAllocLambdaWrapperStub<...>)` (pointer alignment). -/
def stubTypeAlignment : Nat := ptrBytes

/-- The two exception types of `cx/lambda.h`:
`UninitializedLambdaError` and `IncompatibleLambdaError` (which carries a
message). -/
inductive LambdaError where
  | uninitializedLambdaError : LambdaError
  | incompatibleLambdaError : String → LambdaError
deriving DecidableEq, Repr

/-- Message thrown by `Internal::wrapperBufferCheck` when the receiving
buffer is too small. -/
def msgBufferTooSmall : String :=
  "Receiving lambda does not have a large enough buffer to contain " ++
  "the assigned lambda's buffer"

/-- Message thrown by `Internal::wrapperBufferCheck` when the receiving
buffer is under-aligned. -/
def msgBufferMisaligned : String :=
  "Receiving lambda's buffer is not aligned properly to receive " ++
  "the assigned lambda's buffer"

/-- `Internal::wrapperBufferCheck(srcSize, srcAlignment, dstSize,
dstAlignment)`: throws `IncompatibleLambdaError` if `dstSize < srcSize`,
then if `dstAlignment < srcAlignment`; otherwise returns normally. -/
def wrapperBufferCheck (srcSize srcAlignment dstSize dstAlignment : Nat) :
    Except LambdaError Unit :=
  if dstSize < srcSize then
    .error (.incompatibleLambdaError msgBufferTooSmall)
  else if dstAlignment < srcAlignment then
    .error (.incompatibleLambdaError msgBufferMisaligned)
  else
    .ok ()

/-- Size and alignment reported for an `AllocLambda` heap buffer. -/
structure BufProps where
  size : Nat
  alignment : Nat
deriving DecidableEq, Repr

/-- `LambdaOperationBase<...>::checkOrReallocate<Wrapper>(buffer, size,
alignment)` with `wrapperSize = sizeof(Wrapper)` and
`wrapperAlignment = alignof(Wrapper)`.  Returns the updated buffer
properties and whether a new buffer was allocated:
* `size == 0 && alignment == 0` (initial allocation): allocate with
  `max(CX_LAMBDA_BUF_SIZE, wrapperSize)` / `max(CX_LAMBDA_BUF_ALIGN,
  wrapperAlignment)`;
* else if `size < wrapperSize || alignment < wrapperAlignment`: allocate
  with exactly `wrapperSize` / `wrapperAlignment`;
* else: no reallocation. -/
def checkOrReallocate (wrapperSize wrapperAlignment : Nat) (b : BufProps) :
    BufProps × Bool :=
  if b.size = 0 ∧ b.alignment = 0 then
    (⟨max CX_LAMBDA_BUF_SIZE wrapperSize,
      max CX_LAMBDA_BUF_ALIGN wrapperAlignment⟩, true)
  else if b.size < wrapperSize ∨ b.alignment < wrapperAlignment then
    (⟨wrapperSize, wrapperAlignment⟩, true)
  else
    (b, false)

/-! Signatures and the compatibility predicate. -/

/-- A lambda function prototype: return type and parameter types are
identified symbolically (by `Nat` tags), plus the c-variadic flag and the
`noexcept` qualifier.  Two prototypes are the C++ same type iff all four
components agree. -/
structure Prototype where
  ret : Nat
  params : List Nat
  variadic : Bool
  noexcept : Bool
deriving DecidableEq, Repr

/-- Which lambda template a type instantiates (`CX::Lambda` or
`CX::AllocLambda`); both satisfy `Internal::IsLambdaTemplate`. -/
inductive LambdaTemplateKind where
  | nonAlloc : LambdaTemplateKind
  | alloc : LambdaTemplateKind
deriving DecidableEq, Repr

/-- A fully applied lambda type `L<Prototype>`. -/
structure LambdaType where
  kind : LambdaTemplateKind
  proto : Prototype
deriving DecidableEq, Repr

/-- `LambdaMetaFunctions::CompatibleLambda<L1<P1>, L2<P2>>::Value` where
`L1` is the destination and `L2` the source lambda type.  The
noexcept-widening partial specialization (requires `!NoexceptFunction<P1> &&
NoexceptFunction<P2>`, and nothing else about the prototypes) is more
constrained than the matching-prototype specialization, so it wins overload
resolution whenever it applies; otherwise the matching-prototype
specialization yields `SameType<P1, P2>`. -/
def compatibleLambdaValue (l1 l2 : LambdaType) : Bool :=
  if !l1.proto.noexcept && l2.proto.noexcept then
    true
  else
    decide (l1.proto = l2.proto)

/-- The concept `CX::CompatibleLambda<L2, L1>`: source `L2` first,
destination `L1` second; expands to the metafunction with the destination
as its first argument. -/
def CompatibleLambdaC (src dst : LambdaType) : Bool :=
  compatibleLambdaValue dst src

/-! Buffer-resident records (the `LambdaBase` objects). -/

/-- The `sizeof`/`alignof` data attached to a concrete callable type `F`:
the sizes of `NonAllocLambdaWrapper<F, P>` and of `AllocLambdaWrapper<F, P>`
(the allocating wrapper stores two extra property fields, so the two pairs
are independent data). -/
structure FunctorMeta where
  nonAllocSize : Nat
  nonAllocAlignment : Nat
  allocSize : Nat
  allocAlignment : Nat
deriving DecidableEq, Repr

/-- The object resident in a lambda buffer, for a fixed-arity prototype with
argument package `A` and return type `R`:
* `stub alloc bufSize bufAlignment` — `NonAllocLambdaWrapperStub` /
  `AllocLambdaWrapperStub` (per `alloc`), storing the buffer properties it
  was constructed with;
* `wrap alloc m f bufSize bufAlignment` — `NonAllocLambdaWrapper` /
  `AllocLambdaWrapper` holding payload `f`, with `m` the wrapper-type size
  data for `F`; the allocating wrapper stores the buffer properties, the
  non-allocating one ignores them. -/
inductive LambdaRecord (A R : Type) where
  | stub (alloc : Bool) (bufSize bufAlignment : Nat) : LambdaRecord A R
  | wrap (alloc : Bool) (m : FunctorMeta) (f : A → R)
      (bufSize bufAlignment : Nat) : LambdaRecord A R

variable {A R : Type}

/-- `present()`: stubs report `false`, wrappers report `true`. -/
def LambdaRecord.present : LambdaRecord A R → Bool
  | .stub _ _ _ => false
  | .wrap _ _ _ _ _ => true

/-- `bufferSize()`: stubs and allocating wrappers return the stored value;
`NonAllocLambdaWrapper` returns the constant `CX_LAMBDA_BUF_SIZE`. -/
def LambdaRecord.bufferSize : LambdaRecord A R → Nat
  | .stub _ s _ => s
  | .wrap alloc _ _ s _ => if alloc then s else CX_LAMBDA_BUF_SIZE

/-- `bufferAlignment()`: stubs and allocating wrappers return the stored
value; `NonAllocLambdaWrapper` returns the constant `CX_LAMBDA_BUF_ALIGN`. -/
def LambdaRecord.bufferAlignment : LambdaRecord A R → Nat
  | .stub _ _ a => a
  | .wrap alloc _ _ _ a => if alloc then a else CX_LAMBDA_BUF_ALIGN

/-- Outcome of invoking a lambda's call operator. -/
inductive CallResult (R : Type) where
  | ok (r : R) : CallResult R
  | raised (e : LambdaError) : CallResult R
  | terminated : CallResult R
deriving DecidableEq, Repr

/-- `LambdaBase::op` and its wrapper overrides: the stub (uninitialized
lambda) throws `UninitializedLambdaError`; a wrapper forwards the arguments
to `f` and returns its result unchanged. -/
def LambdaRecord.op : LambdaRecord A R → A → CallResult R
  | .stub _ _ _, _ => .raised .uninitializedLambdaError
  | .wrap _ _ f _ _, a => .ok (f a)

/-- `LambdaBase::noexceptOp` and its wrapper overrides: the stub throws
inside a `noexcept` member, which terminates the process; a wrapper forwards
to `f`. -/
def LambdaRecord.noexceptOp : LambdaRecord A R → A → CallResult R
  | .stub _ _ _, _ => .terminated
  | .wrap _ _ f _ _, a => .ok (f a)

/-! The c-variadic record family (`LambdaBase<R (Args..., ...)>`). -/

/-- `LambdaBase<R (Args..., ...)>::FptrWrapper`: binds either a plain
function pointer or a bound instance pointer plus member-function pointer;
`A` is the fixed argument prefix, `V` the trailing variadic package. -/
inductive FptrWrapper (A V R : Type) where
  | staticFn (f : A → V → R) : FptrWrapper A V R
  | member (f : A → V → R) : FptrWrapper A V R

/-- `FptrWrapper::invoke<Noexcept, Varargs...>`: both branches invoke the
bound callable with the fixed arguments followed by the variadic ones. -/
def FptrWrapper.invoke {V : Type} : FptrWrapper A V R → A → V → R
  | .staticFn f, a, v => f a v
  | .member f, a, v => f a v

/-- Buffer-resident record for a c-variadic prototype. -/
inductive VariadicRecord (A V R : Type) where
  | stub : VariadicRecord A V R
  | wrap (f : A → V → R) : VariadicRecord A V R

/-- `LambdaBase<R (Args..., ...)>::get()`: the base (uninitialized) version
throws `UninitializedLambdaError`; the wrapper override returns an
`FptrWrapper` bound to the encapsulated callable (via `&T::operator()`). -/
def VariadicRecord.get {V : Type} :
    VariadicRecord A V R → Except LambdaError (FptrWrapper A V R)
  | .stub => .error .uninitializedLambdaError
  | .wrap f => .ok (.member f)

/-- `present()` for the c-variadic record family. -/
def VariadicRecord.present {V : Type} : VariadicRecord A V R → Bool
  | .stub => false
  | .wrap _ => true

/-- `LambdaBase<R (Args..., ...)>::op<Noexcept, Varargs...>`: calls
`get().invoke(...)`.  When `get()` throws: for `Noexcept = false` the
exception propagates; for `Noexcept = true` it escapes a `noexcept`
function, terminating the process. -/
def VariadicRecord.op {V : Type} (nx : Bool) (r : VariadicRecord A V R)
    (a : A) (v : V) : CallResult R :=
  match r.get with
  | .error e => if nx then .terminated else .raised e
  | .ok w => .ok (w.invoke a v)

/-! Non-allocating `Lambda` operations.  The `Lambda` value owns a fixed
inline buffer of `CX_LAMBDA_BUF_SIZE` bytes aligned to
`CX_LAMBDA_BUF_ALIGN`; its state is the record resident in that buffer.
After `destroy(...)` ran and a subsequent step threw, the buffer holds a
destructed object; `NState.destructed` models that state. -/

/-- State of a non-allocating `Lambda`'s inline buffer: either a live
record, or a destructed one (reachable only when an assignment threw after
`destroy` and before re-initialization). -/
inductive NState (A R : Type) where
  | live (r : LambdaRecord A R) : NState A R
  | destructed : NState A R

/-- Invoking a `Lambda<R (Args...)>` (`operator()` dispatches to the active
record's `op`).  `none` models invoking through a destructed buffer, which
has no defined behaviour. -/
def NState.call : NState A R → A → Option (CallResult R)
  | .live r, a => some (r.op a)
  | .destructed, _ => none

/-- Invoking a `Lambda<R (Args...) noexcept>` (`operator()` dispatches to
the active record's `noexceptOp`). -/
def NState.noexceptCall : NState A R → A → Option (CallResult R)
  | .live r, a => some (r.noexceptOp a)
  | .destructed, _ => none

/-- `LambdaOperationBase<..., false>::initEmptyLambda(buffer, size,
alignment)`: checks the buffer against the stub's size/alignment, then
constructs a `NonAllocLambdaWrapperStub{size, alignment}` in it. -/
def initEmptyNonAlloc (size alignment : Nat) :
    Except LambdaError (LambdaRecord A R) :=
  (wrapperBufferCheck stubTypeSize stubTypeAlignment size alignment).map
    fun _ => .stub false size alignment

/-- The record installed by `Lambda`'s default constructor
(`initEmptyLambda(&buf(), Size, Alignment)` with the inline constants). -/
def defaultNonAllocRecord (A R : Type) : LambdaRecord A R :=
  .stub false CX_LAMBDA_BUF_SIZE CX_LAMBDA_BUF_ALIGN

/-- `assignFunctionCommon` specialized to a non-allocating `Lambda`
destination (`copyAssignFunction` / `moveAssignFunction`): fetch the current
record's reported buffer size and alignment, destroy the record, then
`copyInitWrapper`/`moveInitWrapper` a `NonAllocLambdaWrapper` — which first
runs `wrapperBufferCheck(sizeof(Wrapper), alignof(Wrapper), bufSize,
bufAlignment)` and throws before constructing anything if the inline buffer
is too small or under-aligned.  The destroy happens before the check, so on
failure the buffer is left destructed. -/
def nonAllocAssignFunction (st : LambdaRecord A R) (m : FunctorMeta)
    (f : A → R) : NState A R × Except LambdaError Unit :=
  let lSize := st.bufferSize
  let lAlignment := st.bufferAlignment
  match wrapperBufferCheck m.nonAllocSize m.nonAllocAlignment
      lSize lAlignment with
  | .error e => (.destructed, .error e)
  | .ok _ => (.live (.wrap false m f lSize lAlignment), .ok ())

/-- `copyTo(dstBufPtr, dstBufSize, dstBufAlignment, false)` — relocating a
record into a non-allocating destination buffer:
* stubs check `sizeof`/`alignof` of the non-allocating stub against the
  destination, then install a `NonAllocLambdaWrapperStub{dstSize, dstAlign}`;
* wrappers run `copyInitWrapper<NonAllocLambdaWrapper<F, P>>`, which checks
  `sizeof(NonAllocLambdaWrapper<F, P>)` / its alignment against the
  destination and then constructs the wrapper around a copy of `f`. -/
def LambdaRecord.copyToNonAlloc (src : LambdaRecord A R)
    (dstSize dstAlignment : Nat) : Except LambdaError (LambdaRecord A R) :=
  match src with
  | .stub _ _ _ =>
    (wrapperBufferCheck stubTypeSize stubTypeAlignment
        dstSize dstAlignment).map
      fun _ => .stub false dstSize dstAlignment
  | .wrap _ m f _ _ =>
    (wrapperBufferCheck m.nonAllocSize m.nonAllocAlignment
        dstSize dstAlignment).map
      fun _ => .wrap false m f dstSize dstAlignment

/-- `copyAssignLambda` for a `Lambda <- Lambda` pair (`copyBuffer`): fetch
the destination record's buffer properties, destroy the destination record,
then `copyTo` the source record into the destination buffer.  The destroy
precedes the compatibility check inside `copyTo`. -/
def nonAllocCopyAssignLambda (dst src : LambdaRecord A R) :
    NState A R × Except LambdaError Unit :=
  let b1Size := dst.bufferSize
  let b1Alignment := dst.bufferAlignment
  match src.copyToNonAlloc b1Size b1Alignment with
  | .error e => (.destructed, .error e)
  | .ok r => (.live r, .ok ())

/-- `moveAssignLambda` for a `Lambda <- Lambda` pair (`moveBuffer`): like
the copy, then destroy the source record and re-initialize the source
buffer as an empty lambda with the size/alignment the source reported.
Returns (destination state, source state) and the outcome. -/
def nonAllocMoveAssignLambda (dst src : LambdaRecord A R) :
    (NState A R × NState A R) × Except LambdaError Unit :=
  let b1Size := dst.bufferSize
  let b1Alignment := dst.bufferAlignment
  let b2Size := src.bufferSize
  let b2Alignment := src.bufferAlignment
  match src.copyToNonAlloc b1Size b1Alignment with
  | .error e => ((.destructed, .live src), .error e)
  | .ok r =>
    match initEmptyNonAlloc (A := A) (R := R) b2Size b2Alignment with
    | .error e => ((.live r, .destructed), .error e)
    | .ok stubRec => ((.live r, .live stubRec), .ok ())

/-! The `AllocLambda` heap: an explicit store of reference-counted buffer
cells.  An `AllocLambda` value holds an address into the store (its
`shared_ptr<unsigned char>`); copying the value copies the address. -/

/-- The heap of `AllocLambda` buffers; a cell's index is its address and
allocation appends a cell. -/
structure Heap (A R : Type) where
  cells : List (LambdaRecord A R)

/-- An `AllocLambda` value: a shared reference to a heap buffer. -/
structure AllocLambdaVal where
  addr : Nat
deriving DecidableEq, Repr

/-- Dereference a heap address. -/
def Heap.get (h : Heap A R) (i : Nat) : Option (LambdaRecord A R) :=
  h.cells[i]?

/-- Overwrite the record in the cell at address `i` (destroy the resident
record and placement-construct a replacement in the same buffer). -/
def Heap.set (h : Heap A R) (i : Nat) (r : LambdaRecord A R) : Heap A R :=
  ⟨h.cells.set i r⟩

/-- Allocate a fresh buffer holding record `r`; returns the new heap and
the fresh address. -/
def Heap.alloc (h : Heap A R) (r : LambdaRecord A R) : Heap A R × Nat :=
  (⟨h.cells ++ [r]⟩, h.cells.length)

/-- `AllocLambda::operator()`: dereference the shared buffer and dispatch
to the resident record's `op`.  `none` models a dangling reference, which
no reachable `AllocLambda` has. -/
def allocCall (h : Heap A R) (l : AllocLambdaVal) (a : A) :
    Option (CallResult R) :=
  (h.get l.addr).map fun r => r.op a

/-- `present()` observed through an `AllocLambda`'s buffer. -/
def allocPresent (h : Heap A R) (l : AllocLambdaVal) : Option Bool :=
  (h.get l.addr).map fun r => r.present

/-- `AllocLambda`'s default constructor: `initEmptyLambda(bufPtr, 0, 0)`
runs `checkOrReallocate<AllocLambdaWrapperStub>` on a zero-sized buffer
(allocating `max(CX_LAMBDA_BUF_SIZE, sizeof(stub))` bytes at
`max(CX_LAMBDA_BUF_ALIGN, alignof(stub))`), then constructs the stub with
the updated properties. -/
def allocLambdaInit (h : Heap A R) : Heap A R × AllocLambdaVal :=
  let checked := checkOrReallocate stubTypeSize stubTypeAlignment ⟨0, 0⟩
  let fresh := h.alloc (.stub true checked.1.size checked.1.alignment)
  (fresh.1, ⟨fresh.2⟩)

/-- `assignFunctionCommon` specialized to an `AllocLambda` destination:
read the resident record's reported buffer properties, run
`checkOrReallocate<AllocLambdaWrapper<F, P>>`, then destroy and construct
the new wrapper.  If `checkOrReallocate` allocated, the wrapper is
constructed in the fresh buffer and the lambda's shared reference is reset
to it, leaving the previously shared buffer untouched; otherwise the
wrapper is constructed in place in the existing (possibly shared) buffer.
The `none` branch (dangling address) is unreachable for well-formed
values. -/
def allocAssignFunction (h : Heap A R) (l : AllocLambdaVal)
    (m : FunctorMeta) (f : A → R) : Heap A R × AllocLambdaVal :=
  match h.get l.addr with
  | none => (h, l)
  | some r =>
    let checked := checkOrReallocate m.allocSize m.allocAlignment
      ⟨r.bufferSize, r.bufferAlignment⟩
    let newRec : LambdaRecord A R :=
      .wrap true m f checked.1.size checked.1.alignment
    if checked.2 then
      let fresh := h.alloc newRec
      (fresh.1, ⟨fresh.2⟩)
    else
      (h.set l.addr newRec, l)

/-- `copyAssignLambda` for `AllocLambda <- AllocLambda`: the destination
simply shares the source's reference-counted buffer (`l1.buffer =
l2.buffer`); no relocation, no payload duplication, heap untouched. -/
def allocCopyAssignLambda (h : Heap A R) (_l1 l2 : AllocLambdaVal) :
    Heap A R × AllocLambdaVal :=
  (h, ⟨l2.addr⟩)

/-- `moveAssignLambda` for `AllocLambda <- AllocLambda`: the destination
takes over the source's buffer reference, the source's reference is reset,
and the source is re-initialized via `initEmptyLambda(bufPtr, 0, 0)` — a
freshly allocated default-sized empty buffer (the old buffer's reported
properties are not consulted).  Returns (heap, destination, source). -/
def allocMoveAssignLambda (h : Heap A R) (_l1 l2 : AllocLambdaVal) :
    Heap A R × AllocLambdaVal × AllocLambdaVal :=
  let dest : AllocLambdaVal := ⟨l2.addr⟩
  let checked := checkOrReallocate stubTypeSize stubTypeAlignment ⟨0, 0⟩
  let fresh := h.alloc (.stub true checked.1.size checked.1.alignment)
  (fresh.1, dest, ⟨fresh.2⟩)

/-! Basic heap lemmas. -/

theorem Heap.lt_length_of_get {h : Heap A R} {i : Nat}
    {r : LambdaRecord A R} (hg : h.get i = some r) : i < h.cells.length := by
  by_contra hlt
  rw [Heap.get, List.getElem?_eq_none (Nat.le_of_not_lt hlt)] at hg
  exact Option.noConfusion hg

theorem Heap.get_alloc_self (h : Heap A R) (r : LambdaRecord A R) :
    (h.alloc r).1.get (h.alloc r).2 = some r := by
  simp [Heap.alloc, Heap.get]

theorem Heap.get_alloc_of_lt (h : Heap A R) (r : LambdaRecord A R)
    {i : Nat} (hi : i < h.cells.length) : (h.alloc r).1.get i = h.get i := by
  simp [Heap.alloc, Heap.get, List.getElem?_append, hi]

theorem Heap.get_set_self (h : Heap A R) {i : Nat} (r : LambdaRecord A R)
    (hi : i < h.cells.length) : (h.set i r).get i = some r := by
  simp [Heap.set, Heap.get, List.getElem?_set_self, hi]

/-! Helper lemmas characterizing the buffer-check paths. -/

theorem nonAllocAssignFunction_spec (r : LambdaRecord A R) (m : FunctorMeta)
    (f : A → R) :
    (m.nonAllocSize ≤ r.bufferSize ∧ m.nonAllocAlignment ≤ r.bufferAlignment →
      nonAllocAssignFunction r m f =
        (.live (.wrap false m f r.bufferSize r.bufferAlignment), .ok ())) ∧
    (r.bufferSize < m.nonAllocSize ∨
        r.bufferAlignment < m.nonAllocAlignment →
      ∃ msg, nonAllocAssignFunction r m f =
        (.destructed, .error (.incompatibleLambdaError msg))) := by
  simp only [nonAllocAssignFunction, wrapperBufferCheck]
  by_cases h1 : r.bufferSize < m.nonAllocSize
  · rw [if_pos h1]
    exact ⟨fun hfit => absurd hfit (by omega),
      fun _ => ⟨msgBufferTooSmall, rfl⟩⟩
  · rw [if_neg h1]
    by_cases h2 : r.bufferAlignment < m.nonAllocAlignment
    · rw [if_pos h2]
      exact ⟨fun hfit => absurd hfit (by omega),
        fun _ => ⟨msgBufferMisaligned, rfl⟩⟩
    · rw [if_neg h2]
      exact ⟨fun _ => rfl, fun hbad => absurd hbad (by omega)⟩

theorem copyToNonAlloc_wrap_spec (al : Bool) (m : FunctorMeta) (f : A → R)
    (bs ba ds da : Nat) :
    (m.nonAllocSize ≤ ds ∧ m.nonAllocAlignment ≤ da →
      LambdaRecord.copyToNonAlloc (.wrap al m f bs ba) ds da =
        .ok (.wrap false m f ds da)) ∧
    (ds < m.nonAllocSize ∨ da < m.nonAllocAlignment →
      ∃ msg, LambdaRecord.copyToNonAlloc (.wrap al m f bs ba) ds da =
        .error (.incompatibleLambdaError msg)) := by
  simp only [LambdaRecord.copyToNonAlloc, wrapperBufferCheck]
  by_cases h1 : ds < m.nonAllocSize
  · rw [if_pos h1]
    exact ⟨fun hfit => absurd hfit (by omega),
      fun _ => ⟨msgBufferTooSmall, rfl⟩⟩
  · rw [if_neg h1]
    by_cases h2 : da < m.nonAllocAlignment
    · rw [if_pos h2]
      exact ⟨fun hfit => absurd hfit (by omega),
        fun _ => ⟨msgBufferMisaligned, rfl⟩⟩
    · rw [if_neg h2]
      exact ⟨fun _ => rfl, fun hbad => absurd hbad (by omega)⟩

theorem nonAllocCopyAssignLambda_spec (dst : LambdaRecord A R) (al : Bool)
    (m : FunctorMeta) (f : A → R) (bs ba : Nat) :
    (m.nonAllocSize ≤ dst.bufferSize ∧
        m.nonAllocAlignment ≤ dst.bufferAlignment →
      nonAllocCopyAssignLambda dst (.wrap al m f bs ba) =
        (.live (.wrap false m f dst.bufferSize dst.bufferAlignment),
          .ok ())) ∧
    (dst.bufferSize < m.nonAllocSize ∨
        dst.bufferAlignment < m.nonAllocAlignment →
      ∃ msg, nonAllocCopyAssignLambda dst (.wrap al m f bs ba) =
        (.destructed, .error (.incompatibleLambdaError msg))) := by
  have hspec := copyToNonAlloc_wrap_spec al m f bs ba
    dst.bufferSize dst.bufferAlignment
  constructor
  · intro hfit
    simp only [nonAllocCopyAssignLambda]
    rw [hspec.1 hfit]
  · intro hbad
    obtain ⟨msg, hmsg⟩ := hspec.2 hbad
    refine ⟨msg, ?_⟩
    simp only [nonAllocCopyAssignLambda]
    rw [hmsg]

/-! Claim theorems. -/

/-- C8: when an `AllocLambda` buffer is checked for a wrapper type `W`: if
the current capacity and alignment are both zero, a new buffer is allocated
with size `max(CX_LAMBDA_BUF_SIZE, sizeof(W))` and alignment
`max(CX_LAMBDA_BUF_ALIGN, alignof(W))`; otherwise, if the current capacity
is below `sizeof(W)` or the current alignment is below `alignof(W)`, a new
buffer is allocated with exactly size `sizeof(W)` and alignment
`alignof(W)`; if both are sufficient, no reallocation occurs. -/
theorem checkOrReallocate_growth_policy (w a : Nat) (b : BufProps) :
    (b.size = 0 ∧ b.alignment = 0 →
      checkOrReallocate w a b =
        (⟨max CX_LAMBDA_BUF_SIZE w, max CX_LAMBDA_BUF_ALIGN a⟩, true)) ∧
    (¬(b.size = 0 ∧ b.alignment = 0) → (b.size < w ∨ b.alignment < a) →
      checkOrReallocate w a b = (⟨w, a⟩, true)) ∧
    (¬(b.size = 0 ∧ b.alignment = 0) → w ≤ b.size → a ≤ b.alignment →
      checkOrReallocate w a b = (b, false)) := by
  refine ⟨fun h0 => ?_, fun h0 hlt => ?_, fun h0 hs ha => ?_⟩
  · rw [checkOrReallocate, if_pos h0]
  · rw [checkOrReallocate, if_neg h0, if_pos hlt]
  · rw [checkOrReallocate, if_neg h0, if_neg (by omega)]

/-- Witness for C8: the first allocation of a 100-byte, 8-aligned wrapper
on a zero-sized buffer uses the default-vs-request maxima. -/
theorem checkOrReallocate_growth_policy_witness :
    checkOrReallocate 100 8 ⟨0, 0⟩ =
      (⟨max CX_LAMBDA_BUF_SIZE 100, max CX_LAMBDA_BUF_ALIGN 8⟩, true) :=
  (checkOrReallocate_growth_policy 100 8 ⟨0, 0⟩).1 ⟨rfl, rfl⟩

/-- C9 is refuted on the code: a reachable sequence of `AllocLambda`
operations shrinks the reported buffer capacity.  Starting from a
default-constructed `AllocLambda<Nat (Nat)>`, assigning a functor whose
allocating wrapper is 256 bytes / 8-aligned reallocates to capacity 256;
then assigning a functor whose wrapper is 128 bytes / 128-aligned triggers
reallocation (alignment insufficient) to exactly 128 bytes — the reported
capacity drops from 256 to 128. -/
theorem allocBuffer_capacity_shrinks :
    (let s0 := allocLambdaInit (⟨[]⟩ : Heap Nat Nat)
     let s1 := allocAssignFunction s0.1 s0.2 ⟨256, 8, 256, 8⟩ (fun n => n)
     let s2 := allocAssignFunction s1.1 s1.2 ⟨128, 128, 128, 128⟩
       (fun n => n + 1)
     (s1.1.get s1.2.addr).map LambdaRecord.bufferSize = some 256 ∧
     (s2.1.get s2.2.addr).map LambdaRecord.bufferSize = some 128 ∧
     (128 : Nat) < 256) :=
  ⟨rfl, rfl, by omega⟩

/-- C9 amended: after `checkOrReallocate`, the buffer always meets the
wrapper's size and alignment requirements, and no reallocation happens when
a non-fresh buffer is already sufficient — but the properties are not
monotonically non-decreasing (see `allocBuffer_capacity_shrinks`): a
reallocation triggered by one insufficient property resets the other to
exactly the wrapper's requirement, which may be smaller than before. -/
theorem checkOrReallocate_meets_requirements (w a : Nat) (b : BufProps) :
    w ≤ (checkOrReallocate w a b).1.size ∧
    a ≤ (checkOrReallocate w a b).1.alignment ∧
    (¬(b.size = 0 ∧ b.alignment = 0) → w ≤ b.size → a ≤ b.alignment →
      checkOrReallocate w a b = (b, false)) := by
  unfold checkOrReallocate
  by_cases h0 : b.size = 0 ∧ b.alignment = 0
  · rw [if_pos h0]
    exact ⟨le_max_right _ _, le_max_right _ _, fun h => absurd h0 h⟩
  · rw [if_neg h0]
    by_cases hlt : b.size < w ∨ b.alignment < a
    · rw [if_pos hlt]
      exact ⟨le_refl w, le_refl a, fun _ hs ha => absurd hlt (by omega)⟩
    · rw [if_neg hlt]
      refine ⟨?_, ?_, fun _ _ _ => rfl⟩
      · show w ≤ b.size
        omega
      · show a ≤ b.alignment
        omega

/-- Witness for the amended C9 statement at a concrete sufficient buffer. -/
theorem checkOrReallocate_meets_requirements_witness :
    (8 : Nat) ≤ (checkOrReallocate 8 8 ⟨64, 64⟩).1.size ∧
    checkOrReallocate 8 8 ⟨64, 64⟩ = (⟨64, 64⟩, false) := by
  have h := checkOrReallocate_meets_requirements 8 8 ⟨64, 64⟩
  exact ⟨h.1, h.2.2 (by decide) (by decide) (by decide)⟩

/-- C3: assigning a payload into a non-allocating `Lambda`'s inline buffer
fails with `IncompatibleLambdaError` exactly when the wrapper's size
exceeds the buffer size or its alignment exceeds the buffer alignment; a
wrapper of size exactly `CX_LAMBDA_BUF_SIZE` succeeds (the failure
condition is strict), failures are always `IncompatibleLambdaError`, and
the inline destination never grows: any record left in the buffer still
reports the fixed inline capacity and alignment.  The same holds for
relocating another lambda's record into the inline buffer
(`copyToNonAlloc`). -/
theorem inline_assign_incompatible_exactly (r : LambdaRecord A R)
    (m : FunctorMeta) (f : A → R)
    (hs : r.bufferSize = CX_LAMBDA_BUF_SIZE)
    (ha : r.bufferAlignment = CX_LAMBDA_BUF_ALIGN) :
    ((nonAllocAssignFunction r m f).2 = .ok () ↔
      m.nonAllocSize ≤ CX_LAMBDA_BUF_SIZE ∧
      m.nonAllocAlignment ≤ CX_LAMBDA_BUF_ALIGN) ∧
    (∀ e, (nonAllocAssignFunction r m f).2 = .error e →
      ∃ msg, e = .incompatibleLambdaError msg) ∧
    (∀ r2, (nonAllocAssignFunction r m f).1 = .live r2 →
      r2.bufferSize = CX_LAMBDA_BUF_SIZE ∧
      r2.bufferAlignment = CX_LAMBDA_BUF_ALIGN) ∧
    ((LambdaRecord.copyToNonAlloc (.wrap false m f CX_LAMBDA_BUF_SIZE
        CX_LAMBDA_BUF_ALIGN) r.bufferSize r.bufferAlignment).isOk ↔
      m.nonAllocSize ≤ CX_LAMBDA_BUF_SIZE ∧
      m.nonAllocAlignment ≤ CX_LAMBDA_BUF_ALIGN) := by
  have hspec := nonAllocAssignFunction_spec r m f
  have hcopy := copyToNonAlloc_wrap_spec false m f CX_LAMBDA_BUF_SIZE
    CX_LAMBDA_BUF_ALIGN r.bufferSize r.bufferAlignment
  rw [hs, ha] at hspec hcopy ⊢
  by_cases hfit : m.nonAllocSize ≤ CX_LAMBDA_BUF_SIZE ∧
      m.nonAllocAlignment ≤ CX_LAMBDA_BUF_ALIGN
  · have heq := hspec.1 hfit
    rw [heq, hcopy.1 hfit]
    refine ⟨by simp [hfit], by simp, ?_, by simp [Except.isOk, Except.toBool, hfit]⟩
    intro r2 hr2
    have hr2e : r2 = LambdaRecord.wrap false m f CX_LAMBDA_BUF_SIZE
        CX_LAMBDA_BUF_ALIGN := by
      simpa using hr2.symm
    subst hr2e
    exact ⟨rfl, rfl⟩
  · obtain ⟨msg, heq⟩ := hspec.2 (by omega)
    obtain ⟨msg2, heq2⟩ := hcopy.2 (by omega)
    rw [heq, heq2]
    refine ⟨by simp [hfit], ?_, by simp, by simp [Except.isOk, Except.toBool, hfit]⟩
    intro e he
    simp at he
    exact ⟨msg, he.symm⟩

/-- Witness for C3: a wrapper of exactly `CX_LAMBDA_BUF_SIZE` bytes is
accepted into a default-constructed `Lambda<Nat (Nat)>`; one byte more is
rejected. -/
theorem inline_assign_incompatible_exactly_witness :
    (nonAllocAssignFunction (defaultNonAllocRecord Nat Nat)
      ⟨64, 64, 64, 64⟩ Nat.succ).2 = .ok () ∧
    (nonAllocAssignFunction (defaultNonAllocRecord Nat Nat)
      ⟨65, 64, 65, 64⟩ Nat.succ).2 ≠ .ok () := by
  have h64 := inline_assign_incompatible_exactly
    (defaultNonAllocRecord Nat Nat) ⟨64, 64, 64, 64⟩ Nat.succ rfl rfl
  have h65 := inline_assign_incompatible_exactly
    (defaultNonAllocRecord Nat Nat) ⟨65, 64, 65, 64⟩ Nat.succ rfl rfl
  refine ⟨h64.1.mpr (by decide), fun hok => ?_⟩
  have := h65.1.mp hok
  revert this
  decide

/-- C10: when assigning into a non-allocating `Lambda` raises
`IncompatibleLambdaError`, the destination's previous payload record was
already destroyed before the size/alignment check ran: the failed
assignment leaves the buffer destructed, not holding the prior callable.
This covers both function assignment (`assignFunctionCommon`) and
lambda-to-lambda copy assignment (`copyAssignLambda`). -/
theorem failed_inline_assign_destroys_prior (mOld m : FunctorMeta)
    (fOld f : A → R)
    (hbig : CX_LAMBDA_BUF_SIZE < m.nonAllocSize ∨
      CX_LAMBDA_BUF_ALIGN < m.nonAllocAlignment) :
    (∃ msg, nonAllocAssignFunction
        (.wrap false mOld fOld CX_LAMBDA_BUF_SIZE CX_LAMBDA_BUF_ALIGN) m f =
      (.destructed, .error (.incompatibleLambdaError msg))) ∧
    (∃ msg, nonAllocCopyAssignLambda
        (.wrap false mOld fOld CX_LAMBDA_BUF_SIZE CX_LAMBDA_BUF_ALIGN)
        (.wrap false m f CX_LAMBDA_BUF_SIZE CX_LAMBDA_BUF_ALIGN) =
      (.destructed, .error (.incompatibleLambdaError msg))) ∧
    (NState.destructed ≠ NState.live
      (.wrap false mOld fOld CX_LAMBDA_BUF_SIZE CX_LAMBDA_BUF_ALIGN
        (A := A) (R := R))) := by
  have hprior : (LambdaRecord.wrap false mOld fOld CX_LAMBDA_BUF_SIZE
      CX_LAMBDA_BUF_ALIGN (A := A) (R := R)).bufferSize =
      CX_LAMBDA_BUF_SIZE := rfl
  have hprioa : (LambdaRecord.wrap false mOld fOld CX_LAMBDA_BUF_SIZE
      CX_LAMBDA_BUF_ALIGN (A := A) (R := R)).bufferAlignment =
      CX_LAMBDA_BUF_ALIGN := rfl
  have hspec := (nonAllocAssignFunction_spec
    (.wrap false mOld fOld CX_LAMBDA_BUF_SIZE CX_LAMBDA_BUF_ALIGN) m f).2
  have hcopy := (nonAllocCopyAssignLambda_spec
    (.wrap false mOld fOld CX_LAMBDA_BUF_SIZE CX_LAMBDA_BUF_ALIGN)
    false m f CX_LAMBDA_BUF_SIZE CX_LAMBDA_BUF_ALIGN).2
  rw [hprior, hprioa] at hspec hcopy
  exact ⟨hspec hbig, hcopy hbig, by simp⟩

/-- Witness for C10 at a concrete oversized payload. -/
theorem failed_inline_assign_destroys_prior_witness :
    ∃ msg, nonAllocAssignFunction
        (.wrap false ⟨24, 8, 40, 8⟩ Nat.succ CX_LAMBDA_BUF_SIZE
          CX_LAMBDA_BUF_ALIGN) ⟨128, 8, 144, 8⟩ Nat.succ =
      (.destructed, .error (.incompatibleLambdaError msg)) :=
  (failed_inline_assign_destroys_prior ⟨24, 8, 40, 8⟩ ⟨128, 8, 144, 8⟩
    Nat.succ Nat.succ (Or.inl (by decide))).1

/-- C4: for two lambda types whose prototypes have identical parameter and
return types (and variadicity), a `noexcept`-qualified source is accepted by
the compatibility predicate into a throwing (unqualified) destination, and a
throwing source is rejected by the predicate for a `noexcept`-qualified
destination — the predicate gates the converting constructors and assignment
operators (`requires (CompatibleLambda<L, Lambda>)`), so predicate falsity
is rejection at construction time. -/
theorem noexcept_widening_accepted (k1 k2 : LambdaTemplateKind)
    (dst src : Prototype) (hr : dst.ret = src.ret)
    (hp : dst.params = src.params) (hv : dst.variadic = src.variadic) :
    (src.noexcept = true → dst.noexcept = false →
      CompatibleLambdaC ⟨k2, src⟩ ⟨k1, dst⟩ = true) ∧
    (src.noexcept = false → dst.noexcept = true →
      CompatibleLambdaC ⟨k2, src⟩ ⟨k1, dst⟩ = false) := by
  constructor
  · intro hsn hdn
    simp [CompatibleLambdaC, compatibleLambdaValue, hsn, hdn]
  · intro hsn hdn
    have hne : dst ≠ src := by
      intro he
      rw [he, hsn] at hdn
      exact Bool.noConfusion hdn
    simp [CompatibleLambdaC, compatibleLambdaValue, hsn, hdn, hne]

/-- Witness for C4 on the prototypes `Nat (Nat) noexcept` vs `Nat (Nat)`,
tagged symbolically: the noexcept source widens into the throwing
destination, and the throwing source is rejected by the noexcept
destination. -/
theorem noexcept_widening_accepted_witness :
    CompatibleLambdaC ⟨.nonAlloc, ⟨0, [0], false, true⟩⟩
      ⟨.nonAlloc, ⟨0, [0], false, false⟩⟩ = true ∧
    CompatibleLambdaC ⟨.nonAlloc, ⟨0, [0], false, false⟩⟩
      ⟨.nonAlloc, ⟨0, [0], false, true⟩⟩ = false := by
  have h1 := noexcept_widening_accepted LambdaTemplateKind.nonAlloc
    LambdaTemplateKind.nonAlloc ⟨0, [0], false, false⟩ ⟨0, [0], false, true⟩
    rfl rfl rfl
  have h2 := noexcept_widening_accepted LambdaTemplateKind.nonAlloc
    LambdaTemplateKind.nonAlloc ⟨0, [0], false, true⟩ ⟨0, [0], false, false⟩
    rfl rfl rfl
  exact ⟨h1.1 rfl rfl, h2.2 rfl rfl⟩

/-- C5 is refuted: the compatibility predicate accepts a noexcept-qualified
source into a throwing destination even when the parameter and return types
differ — here a native-variadic `noexcept` prototype (tag 2, no fixed
parameters) is accepted into a fixed-arity throwing destination (tag 0, one
parameter), although the claim says a native-variadic prototype is never
compatible with a fixed-arity one in either direction. -/
theorem compat_accepts_mismatched_prototypes :
    CompatibleLambdaC ⟨.nonAlloc, ⟨2, [], true, true⟩⟩
      ⟨.nonAlloc, ⟨0, [1], false, false⟩⟩ = true ∧
    (⟨0, [1], false, false⟩ : Prototype) ≠ ⟨2, [], true, true⟩ := by
  decide

/-- C5 amended: the compatibility predicate accepts a (source, destination)
pair iff the two prototypes are identical, or the destination is
throwing-qualified and the source is noexcept-qualified — with no further
requirement that parameter/return types or variadicity agree.  (The code's
noexcept-widening partial specialization constrains only the two noexcept
qualifiers.) -/
theorem compatibility_characterization (k1 k2 : LambdaTemplateKind)
    (dst src : Prototype) :
    CompatibleLambdaC ⟨k2, src⟩ ⟨k1, dst⟩ = true ↔
      dst = src ∨ (dst.noexcept = false ∧ src.noexcept = true) := by
  rw [CompatibleLambdaC, compatibleLambdaValue]
  by_cases hn : !dst.noexcept && src.noexcept
  · rw [if_pos hn]
    simp only [Bool.and_eq_true, Bool.not_eq_true'] at hn
    simp [hn.1, hn.2]
  · rw [if_neg hn]
    simp only [Bool.and_eq_true, Bool.not_eq_true'] at hn
    constructor
    · intro he
      exact Or.inl (of_decide_eq_true he)
    · intro he
      rcases he with he | he
      · exact decide_eq_true he
      · exact absurd he (by tauto)

/-- Witness for the amended C5 at an identical cross-template prototype
pair. -/
theorem compatibility_characterization_witness :
    CompatibleLambdaC ⟨.alloc, ⟨0, [], false, false⟩⟩
      ⟨.nonAlloc, ⟨0, [], false, false⟩⟩ = true :=
  (compatibility_characterization LambdaTemplateKind.nonAlloc
    LambdaTemplateKind.alloc ⟨0, [], false, false⟩
    ⟨0, [], false, false⟩).mpr (Or.inl rfl)

/-- C1: for every supported signature and compatible callable `f`,
constructing a `Lambda` or `AllocLambda` from `f` (by copy or move — both
initialization paths install the same payload) and invoking the call
operator yields exactly `f`'s result, with no adaptation: covers the
throwing inline `Lambda`, the `noexcept` inline `Lambda`, the `AllocLambda`
(construction always succeeds, reallocating if needed), and the c-variadic
`FptrWrapper::invoke` dispatch. -/
theorem construct_then_invoke_transparent {V : Type} (m : FunctorMeta)
    (f : A → R) (g : A → V → R) (a : A) (v : V)
    (hs : m.nonAllocSize ≤ CX_LAMBDA_BUF_SIZE)
    (ha : m.nonAllocAlignment ≤ CX_LAMBDA_BUF_ALIGN) :
    (NState.call
      (nonAllocAssignFunction (defaultNonAllocRecord A R) m f).1 a =
      some (.ok (f a))) ∧
    (NState.noexceptCall
      (nonAllocAssignFunction (defaultNonAllocRecord A R) m f).1 a =
      some (.ok (f a))) ∧
    (∀ h : Heap A R, ∀ l : AllocLambdaVal, ∀ r : LambdaRecord A R,
      h.get l.addr = some r →
      (fun s => allocCall s.1 s.2 a) (allocAssignFunction h l m f) =
        some (.ok (f a))) ∧
    ((VariadicRecord.wrap g).op false a v = .ok (g a v)) ∧
    ((VariadicRecord.wrap g).op true a v = .ok (g a v)) := by
  have hd : (defaultNonAllocRecord A R).bufferSize = CX_LAMBDA_BUF_SIZE ∧
      (defaultNonAllocRecord A R).bufferAlignment = CX_LAMBDA_BUF_ALIGN :=
    ⟨rfl, rfl⟩
  have heq := (nonAllocAssignFunction_spec (defaultNonAllocRecord A R) m f).1
    (by rw [hd.1, hd.2]; exact ⟨hs, ha⟩)
  refine ⟨?_, ?_, ?_, rfl, rfl⟩
  · rw [heq]
    rfl
  · rw [heq]
    rfl
  · intro h l r hget
    simp only [allocAssignFunction, hget]
    by_cases hre : (checkOrReallocate m.allocSize m.allocAlignment
        ⟨r.bufferSize, r.bufferAlignment⟩).2
    · rw [if_pos hre]
      simp [allocCall, Heap.get_alloc_self]
      rfl
    · rw [if_neg hre]
      simp [allocCall,
        Heap.get_set_self h _ (Heap.lt_length_of_get hget)]
      rfl

/-- Witness for C1 with a concrete 24-byte functor on `Nat` payloads. -/
theorem construct_then_invoke_transparent_witness :
    NState.call
      (nonAllocAssignFunction (defaultNonAllocRecord Nat Nat)
        ⟨24, 8, 40, 8⟩ (fun n => n + 7)).1 5 = some (.ok 12) := by
  have h := construct_then_invoke_transparent (V := Unit) ⟨24, 8, 40, 8⟩
    (fun n => n + 7) (fun n _ => n) 5 () (by decide) (by decide)
  exact h.1

/-- C2: a `Lambda` or `AllocLambda` in the Empty state (its buffer holds a
stub — the default-constructed state, and the state a move leaves its
source in) raises `UninitializedLambdaError` from the throwing call
operator and terminates the process from the `noexcept` call operator (the
stub's throw escapes a `noexcept` function); likewise for the c-variadic
operators.  Default construction and the moved-from source of an
`AllocLambda` move are shown to be in this state. -/
theorem empty_lambda_call_fails {V : Type} (r : LambdaRecord A R)
    (vr : VariadicRecord A V R) (a : A) (v : V)
    (hr : r.present = false) (hv : vr.present = false) :
    r.op a = .raised .uninitializedLambdaError ∧
    r.noexceptOp a = .terminated ∧
    vr.op false a v = .raised .uninitializedLambdaError ∧
    vr.op true a v = .terminated ∧
    (defaultNonAllocRecord A R).present = false ∧
    (∀ h : Heap A R, ∀ l1 l2 : AllocLambdaVal,
      ∃ rs, (allocMoveAssignLambda h l1 l2).1.get
          (allocMoveAssignLambda h l1 l2).2.2.addr = some rs ∧
        rs.present = false) := by
  have hstub : ∃ al bs ba, r = .stub al bs ba := by
    cases r with
    | stub al bs ba => exact ⟨al, bs, ba, rfl⟩
    | wrap al m f bs ba => exact absurd hr (by simp [LambdaRecord.present])
  have hvstub : vr = .stub := by
    cases vr with
    | stub => rfl
    | wrap f => exact absurd hv (by simp [VariadicRecord.present])
  obtain ⟨al, bs, ba, hre⟩ := hstub
  subst hre
  subst hvstub
  refine ⟨rfl, rfl, rfl, rfl, rfl, ?_⟩
  intro h l1 l2
  exact ⟨_, Heap.get_alloc_self h _, rfl⟩

/-- Witness for C2 at the default-constructed `Lambda<Nat (Nat)>` state and
the empty c-variadic record. -/
theorem empty_lambda_call_fails_witness :
    LambdaRecord.op (defaultNonAllocRecord Nat Nat) 3 =
      .raised .uninitializedLambdaError ∧
    LambdaRecord.noexceptOp (defaultNonAllocRecord Nat Nat) 3 =
      .terminated := by
  have h := empty_lambda_call_fails (V := Unit)
    (defaultNonAllocRecord Nat Nat) VariadicRecord.stub 3 () rfl rfl
  exact ⟨h.1, h.2.1⟩

/-- C6 is refuted: after copy-assigning `AllocLambda` `b` from `a` (buffer
sharing), reassigning `b` to a different callable that fits the shared
buffer destroys and reconstructs the wrapper in place in the shared buffer,
so the original `a`'s observable call behavior changes (from returning
`n + 1` to returning `n + 2` at `n = 0`), contradicting the claim that
reassigning the copy leaves the original unchanged. -/
theorem alloc_copy_reassign_mutates_original :
    (let init := allocLambdaInit (⟨[]⟩ : Heap Nat Nat)
     let orig := allocAssignFunction init.1 init.2 ⟨24, 8, 40, 8⟩
       (fun n => n + 1)
     let copyInit := allocLambdaInit orig.1
     let copied := allocCopyAssignLambda copyInit.1 copyInit.2 orig.2
     let re := allocAssignFunction copied.1 copied.2 ⟨24, 8, 40, 8⟩
       (fun n => n + 2)
     allocCall copied.1 orig.2 0 = some (.ok 1) ∧
     allocCall re.1 orig.2 0 = some (.ok 2) ∧
     (some (CallResult.ok 1) : Option (CallResult Nat)) ≠
       some (.ok 2)) :=
  ⟨rfl, rfl, by decide⟩

/-- C6 amended: copy-assigning `AllocLambda` from `AllocLambda` shares the
source's reference-counted buffer with no relocation or duplication (the
heap is untouched and the destination references the source's cell), and
invoking either value afterwards yields identical results.  However,
reassigning the copy to a different callable whose allocating wrapper fits
the shared buffer destroys and reconstructs the payload in place in that
shared buffer (affecting the original); only when the new wrapper requires
reallocation does the original's cell stay unchanged. -/
theorem alloc_copy_sharing_semantics (h : Heap A R)
    (l1 l2 : AllocLambdaVal) (r : LambdaRecord A R) (a : A)
    (hget : h.get l2.addr = some r) :
    allocCopyAssignLambda h l1 l2 = (h, ⟨l2.addr⟩) ∧
    allocCall h ⟨l2.addr⟩ a = allocCall h l2 a ∧
    (∀ m : FunctorMeta, ∀ g : A → R,
      ¬(r.bufferSize = 0 ∧ r.bufferAlignment = 0) →
      m.allocSize ≤ r.bufferSize → m.allocAlignment ≤ r.bufferAlignment →
      allocAssignFunction h ⟨l2.addr⟩ m g =
        (h.set l2.addr (.wrap true m g r.bufferSize r.bufferAlignment),
          ⟨l2.addr⟩)) ∧
    (∀ m : FunctorMeta, ∀ g : A → R,
      r.bufferSize < m.allocSize ∨ r.bufferAlignment < m.allocAlignment →
      (allocAssignFunction h ⟨l2.addr⟩ m g).1.get l2.addr = some r) := by
  refine ⟨rfl, rfl, ?_, ?_⟩
  · intro m g h0 hs2 ha2
    have hc : checkOrReallocate m.allocSize m.allocAlignment
        ⟨r.bufferSize, r.bufferAlignment⟩ =
        (⟨r.bufferSize, r.bufferAlignment⟩, false) := by
      unfold checkOrReallocate
      rw [if_neg (by simpa using h0), if_neg (by simp; omega)]
    simp only [allocAssignFunction, hget, hc]
    simp
  · intro m g hbad
    have hc2 : (checkOrReallocate m.allocSize m.allocAlignment
        ⟨r.bufferSize, r.bufferAlignment⟩).2 = true := by
      unfold checkOrReallocate
      by_cases h0 : r.bufferSize = 0 ∧ r.bufferAlignment = 0
      · rw [if_pos (by simpa using h0)]
      · rw [if_neg (by simpa using h0), if_pos (by simp; omega)]
    simp only [allocAssignFunction, hget, hc2, if_true]
    rw [Heap.get_alloc_of_lt h _ (Heap.lt_length_of_get hget), hget]

/-- Witness for the amended C6 at a concrete shared heap cell. -/
theorem alloc_copy_sharing_semantics_witness :
    allocCopyAssignLambda
        (⟨[.wrap true ⟨24, 8, 40, 8⟩ (fun n => n + 1) 64 64]⟩ : Heap Nat Nat)
        ⟨0⟩ ⟨0⟩ =
      (⟨[.wrap true ⟨24, 8, 40, 8⟩ (fun n => n + 1) 64 64]⟩, ⟨0⟩) ∧
    (allocAssignFunction
        (⟨[.wrap true ⟨24, 8, 40, 8⟩ (fun n => n + 1) 64 64]⟩ : Heap Nat Nat)
        ⟨0⟩ ⟨24, 8, 80, 8⟩ (fun n => n + 2)).1.get 0 =
      some (.wrap true ⟨24, 8, 40, 8⟩ (fun n => n + 1) 64 64) := by
  have h := alloc_copy_sharing_semantics
    (⟨[.wrap true ⟨24, 8, 40, 8⟩ (fun n => n + 1) 64 64]⟩ : Heap Nat Nat)
    ⟨0⟩ ⟨0⟩ (.wrap true ⟨24, 8, 40, 8⟩ (fun n => n + 1) 64 64) 0 rfl
  exact ⟨h.1, h.2.2.2 ⟨24, 8, 80, 8⟩ (fun n => n + 2) (Or.inl (by decide))⟩

/-- C7 is refuted on its `AllocLambda <- AllocLambda` clause: the
moved-from source's fresh empty buffer is default-sized, not sized to what
the old buffer used to report.  Here the source's buffer reported capacity
256 before the move, but the freshly allocated empty buffer reports 64
(`max(CX_LAMBDA_BUF_SIZE, sizeof(stub))`) — `initEmptyLambda` is called
with `(0, 0)`, never consulting the old properties. -/
theorem move_assign_source_buffer_default_sized :
    (let init := allocLambdaInit (⟨[]⟩ : Heap Nat Nat)
     let big := allocAssignFunction init.1 init.2 ⟨24, 8, 256, 8⟩
       (fun n => n + 1)
     let dst := allocLambdaInit big.1
     let mv := allocMoveAssignLambda dst.1 dst.2 big.2
     (big.1.get big.2.addr).map LambdaRecord.bufferSize = some 256 ∧
     (mv.1.get mv.2.2.addr).map LambdaRecord.bufferSize = some 64 ∧
     (64 : Nat) ≠ 256) :=
  ⟨rfl, rfl, by decide⟩

/-- C7 amended: after move-assigning a lambda value `x` into a compatible
destination, `x` is Empty (`present() == false`) and the destination is
Present with `x`'s original behavior; for the `AllocLambda <- AllocLambda`
case `x`'s heap reference is cleared and replaced with a freshly allocated
empty heap buffer of the default size `max(CX_LAMBDA_BUF_SIZE,
sizeof(stub))` and alignment `max(CX_LAMBDA_BUF_ALIGN, alignof(stub))`,
regardless of what the old buffer reported, so `x` remains usable.  The
non-allocating `Lambda <- Lambda` move likewise transfers the payload and
re-initializes the source as an empty stub. -/
theorem move_assign_drains_source (h : Heap A R) (l1 l2 : AllocLambdaVal)
    (r : LambdaRecord A R) (a : A) (hget : h.get l2.addr = some r)
    (hp : r.present = true) :
    (allocMoveAssignLambda h l1 l2).1.get
        (allocMoveAssignLambda h l1 l2).2.1.addr = some r ∧
    allocCall (allocMoveAssignLambda h l1 l2).1
        (allocMoveAssignLambda h l1 l2).2.1 a = some (r.op a) ∧
    allocPresent (allocMoveAssignLambda h l1 l2).1
        (allocMoveAssignLambda h l1 l2).2.1 = some true ∧
    (allocMoveAssignLambda h l1 l2).1.get
        (allocMoveAssignLambda h l1 l2).2.2.addr =
      some (.stub true (max CX_LAMBDA_BUF_SIZE stubTypeSize)
        (max CX_LAMBDA_BUF_ALIGN stubTypeAlignment)) ∧
    allocPresent (allocMoveAssignLambda h l1 l2).1
        (allocMoveAssignLambda h l1 l2).2.2 = some false ∧
    (∀ (dst : LambdaRecord A R) (m : FunctorMeta) (f : A → R) (bs ba : Nat),
      dst.bufferSize = CX_LAMBDA_BUF_SIZE →
      dst.bufferAlignment = CX_LAMBDA_BUF_ALIGN →
      m.nonAllocSize ≤ CX_LAMBDA_BUF_SIZE →
      m.nonAllocAlignment ≤ CX_LAMBDA_BUF_ALIGN →
      nonAllocMoveAssignLambda dst (.wrap false m f bs ba) =
        ((.live (.wrap false m f CX_LAMBDA_BUF_SIZE CX_LAMBDA_BUF_ALIGN),
          .live (.stub false CX_LAMBDA_BUF_SIZE CX_LAMBDA_BUF_ALIGN)),
          .ok ())) := by
  have hlt := Heap.lt_length_of_get hget
  have hdest : (allocMoveAssignLambda h l1 l2).1.get
      (allocMoveAssignLambda h l1 l2).2.1.addr = some r := by
    simp only [allocMoveAssignLambda]
    rw [Heap.get_alloc_of_lt h _ hlt, hget]
  refine ⟨hdest, ?_, ?_, ?_, ?_, ?_⟩
  · simp only [allocCall]
    rw [hdest]
    rfl
  · simp only [allocPresent]
    rw [hdest]
    simp [hp]
  · simp only [allocMoveAssignLambda]
    exact Heap.get_alloc_self h _
  · simp only [allocPresent, allocMoveAssignLambda]
    rw [Heap.get_alloc_self h _]
    rfl
  · intro dst m f bs ba hds hda hms hma
    have hcopy := (copyToNonAlloc_wrap_spec false m f bs ba
      dst.bufferSize dst.bufferAlignment).1
      (by rw [hds, hda]; exact ⟨hms, hma⟩)
    rw [hds, hda] at hcopy
    simp only [nonAllocMoveAssignLambda, hds, hda, hcopy]
    rfl

/-- Witness for the amended C7 at a concrete one-cell heap. -/
theorem move_assign_drains_source_witness :
    (allocMoveAssignLambda
        (⟨[.wrap true ⟨24, 8, 40, 8⟩ (fun n => n + 1) 64 64]⟩ : Heap Nat Nat)
        ⟨0⟩ ⟨0⟩).1.get
      (allocMoveAssignLambda
        (⟨[.wrap true ⟨24, 8, 40, 8⟩ (fun n => n + 1) 64 64]⟩ : Heap Nat Nat)
        ⟨0⟩ ⟨0⟩).2.2.addr =
      some (.stub true (max CX_LAMBDA_BUF_SIZE stubTypeSize)
        (max CX_LAMBDA_BUF_ALIGN stubTypeAlignment)) := by
  have h := move_assign_drains_source
    (⟨[.wrap true ⟨24, 8, 40, 8⟩ (fun n => n + 1) 64 64]⟩ : Heap Nat Nat)
    ⟨0⟩ ⟨0⟩ (.wrap true ⟨24, 8, 40, 8⟩ (fun n => n + 1) 64 64) 0 rfl rfl
  exact h.2.2.2.1

end CXL
